import Mathlib

/-!
Shallow embedding of the isocubic repository's pure data-model helpers:
the cube/stack types with `createCubeStack`, `createStackLayer` and
`getLayerBlendFactor` (stack module), the collaboration types with the
ID/color/code generators, type guards and session (de)serialization
(`collaboration.ts`), and the FFT-to-shader-uniform marshalling of
`energy-cube.ts`.  JavaScript numbers are modelled as rationals; optional
fields as `Option`; `Math.random()` draws and `Date.now()` appear as
explicit parameters.
-/

namespace Isocubic

/-- RGB color as normalized values, `[number, number, number]` in the source. -/
abbrev Color3 := Rat × Rat × Rat

/-- Physical material type union from `cube.ts`. -/
inductive MaterialType
  | stone | wood | metal | glass | organic | crystal | liquid
deriving DecidableEq, Repr

/-- Material break pattern union from `cube.ts`. -/
inductive BreakPattern
  | crumble | shatter | splinter | melt | dissolve
deriving DecidableEq, Repr

/-- Boundary mode union from `cube.ts`. -/
inductive BoundaryMode
  | none | smooth | hard
deriving DecidableEq, Repr

/-- Procedural noise type union from `cube.ts`. -/
inductive NoiseType
  | perlin | worley | crackle
deriving DecidableEq, Repr

/-- Gradient axis union from `cube.ts`. -/
inductive GradientAxis
  | x | y | z | radial
deriving DecidableEq, Repr

/-- Base material properties (`CubeBase`). -/
structure CubeBase where
  color : Color3
  roughness : Option Rat
  transparency : Option Rat
deriving DecidableEq, Repr

/-- Gradient effect configuration (`CubeGradient`). -/
structure CubeGradient where
  axis : GradientAxis
  factor : Rat
  color_shift : Color3
deriving DecidableEq, Repr

/-- Procedural noise settings (`CubeNoise`). -/
structure CubeNoise where
  type : Option NoiseType
  scale : Option Rat
  octaves : Option Nat
  persistence : Option Rat
  mask : Option String
deriving DecidableEq, Repr

/-- Physical properties of the material (`CubePhysics`). -/
structure CubePhysics where
  material : Option MaterialType
  density : Option Rat
  break_pattern : Option BreakPattern
deriving DecidableEq, Repr

/-- Metadata and tags (`CubeMeta`). -/
structure CubeMeta where
  name : Option String
  tags : Option (List String)
  author : Option String
  created : Option String
  modified : Option String
deriving DecidableEq, Repr

/-- Boundary stitching settings (`CubeBoundary`). -/
structure CubeBoundary where
  mode : Option BoundaryMode
  neighbor_influence : Option Rat
deriving DecidableEq, Repr

/-- Complete `SpectralCube` configuration from `cube.ts`. -/
structure SpectralCube where
  id : String
  prompt : Option String
  base : CubeBase
  gradients : Option (List CubeGradient)
  noise : Option CubeNoise
  physics : Option CubePhysics
  meta : Option CubeMeta
  boundary : Option CubeBoundary
deriving DecidableEq, Repr

/-- Single FFT coefficient (`FFTCoefficient`, shared shape in `cube.ts`
and `energy-cube.ts`). -/
structure FFTCoefficient where
  amplitude : Rat
  phase : Rat
  freqX : Rat
  freqY : Rat
  freqZ : Rat
deriving DecidableEq, Repr

/-- FFT channel data for one color channel (`FFTChannel`). -/
structure FFTChannel where
  dcAmplitude : Rat
  dcPhase : Rat
  coefficients : List FFTCoefficient
deriving DecidableEq, Repr

/-- FFT channels for all color channels (`FFTChannels`). -/
structure FFTChannels where
  R : Option FFTChannel
  G : Option FFTChannel
  B : Option FFTChannel
  A : Option FFTChannel
deriving DecidableEq, Repr

/-- Extended physics for energy cubes (`FFTCubePhysics extends CubePhysics`). -/
structure FFTCubePhysics where
  material : Option MaterialType
  density : Option Rat
  break_pattern : Option BreakPattern
  coherence_loss : Option Rat
  fracture_threshold : Option Rat
deriving DecidableEq, Repr

/-- FFT-based magical cube configuration (`FFTCubeConfig`); `fft_size` is
one of the literals 8, 16, 32 in the source and is kept as a `Nat`. -/
structure FFTCubeConfig where
  id : String
  prompt : Option String
  is_magical : Bool
  fft_size : Nat
  energy_capacity : Rat
  current_energy : Option Rat
  channels : FFTChannels
  physics : Option FFTCubePhysics
  meta : Option CubeMeta
  boundary : Option CubeBoundary
deriving DecidableEq, Repr

/-! ## Stack types (`stack.ts`, `src/unnamed/part_000`) -/

/-- Type of transition between stack layers (`StackTransitionType`). -/
inductive StackTransitionType
  | blend | hard | gradient | noise
deriving DecidableEq, Repr

/-- Stack layer position union (`StackLayerPosition`). -/
inductive StackLayerPosition
  | bottom | middle | top | single
deriving DecidableEq, Repr

/-- Easing union `'linear' | 'smooth' | 'ease-in' | 'ease-out'` of
`StackTransition.easing`. -/
inductive Easing
  | linear | smooth | easeIn | easeOut
deriving DecidableEq, Repr

/-- Transition settings between two adjacent layers (`StackTransition`). -/
structure StackTransition where
  type : StackTransitionType
  blendHeight : Option Rat
  easing : Option Easing
  blendNoise : Option Bool
  blendGradients : Option Bool
deriving DecidableEq, Repr

/-- Single layer in a cube stack (`StackLayer`). -/
structure StackLayer where
  id : String
  name : Option String
  position : StackLayerPosition
  cubeConfig : SpectralCube
  height : Option Rat
  transitionToNext : Option StackTransition
deriving DecidableEq, Repr

/-- Physics properties specific to stacked structures
(`StackPhysics extends CubePhysics`). -/
structure StackPhysics where
  material : Option MaterialType
  density : Option Rat
  break_pattern : Option BreakPattern
  isStable : Option Bool
  totalWeight : Option Rat
  weightDistribution : Option Rat
  structuralIntegrity : Option Rat
deriving DecidableEq, Repr

/-- Complete configuration for a cube stack (`CubeStackConfig`). -/
structure CubeStackConfig where
  id : String
  prompt : Option String
  layers : List StackLayer
  totalHeight : Rat
  physics : Option StackPhysics
  boundaryMode : Option BoundaryMode
  neighborInfluence : Option Rat
  meta : Option CubeMeta
deriving DecidableEq, Repr

/-- `DEFAULT_STACK_TRANSITION` constant. -/
def DEFAULT_STACK_TRANSITION : StackTransition :=
  { type := .blend
    blendHeight := some (2/10)
    easing := some .smooth
    blendNoise := some true
    blendGradients := some true }

/-- `DEFAULT_STACK_PHYSICS` constant. -/
def DEFAULT_STACK_PHYSICS : StackPhysics :=
  { material := some .stone
    density := some (25/10)
    break_pattern := some .crumble
    isStable := some true
    totalWeight := some 0
    weightDistribution := some (5/10)
    structuralIntegrity := some 1 }

/-- `createStackLayer(id, cubeConfig, position = 'middle', height = 1)`. -/
def createStackLayer (id : String) (cubeConfig : SpectralCube)
    (position : StackLayerPosition := .middle) (height : Rat := 1) : StackLayer :=
  { id := id
    name := none
    position := position
    cubeConfig := cubeConfig
    height := some height
    transitionToNext :=
      if position ≠ .top ∧ position ≠ .single then some DEFAULT_STACK_TRANSITION
      else none }

/-- Index-passing list map, the model of JavaScript
`array.map((element, index) => ...)`: `start` is the index of the first
element. -/
def mapWithIndex {α β : Type} (f : Nat → α → β) : Nat → List α → List β
  | _, [] => []
  | start, a :: as => f start a :: mapWithIndex f (start + 1) as

/-- The per-layer body of the `layers.map((layer, index) => ...)` call inside
`createCubeStack`: reassigns `position` from the index and normalizes
`transitionToNext`. -/
def positionLayer (totalLayers : Nat) (index : Nat) (layer : StackLayer) : StackLayer :=
  let position : StackLayerPosition :=
    if totalLayers = 1 then .single
    else if index = 0 then .bottom
    else if index = totalLayers - 1 then .top
    else .middle
  { layer with
    position := position
    transitionToNext :=
      if position ≠ .top ∧ position ≠ .single then
        some (layer.transitionToNext.getD DEFAULT_STACK_TRANSITION)
      else none }

/-- `createCubeStack(id, layers, prompt?)`.  The source stamps
`meta.created` with `new Date().toISOString()`; the current time string is
passed explicitly as `now`. -/
def createCubeStack (id : String) (layers : List StackLayer)
    (prompt : Option String) (now : String) : CubeStackConfig :=
  let positionedLayers := mapWithIndex (positionLayer layers.length) 0 layers
  let totalHeight := positionedLayers.foldl (fun sum layer => sum + layer.height.getD 1) 0
  let totalWeight := positionedLayers.foldl
    (fun sum layer =>
      let density := (layer.cubeConfig.physics.bind CubePhysics.density).getD (25/10)
      let height := layer.height.getD 1
      sum + density * height) 0
  { id := id
    prompt := prompt
    layers := positionedLayers
    totalHeight := totalHeight
    physics := some { DEFAULT_STACK_PHYSICS with totalWeight := some totalWeight }
    boundaryMode := some .smooth
    neighborInfluence := some (5/10)
    meta := some { name := none, tags := none, author := none,
                   created := some now, modified := none } }

/-- `getLayerBlendFactor(stack, layerIndex, localY)`.  An out-of-range
`layerIndex` would throw in JavaScript (property access on `undefined`);
the model returns 0 there, and every theorem below restricts to valid
indices. -/
def getLayerBlendFactor (stack : CubeStackConfig) (layerIndex : Nat)
    (localY : Rat) : Rat :=
  match stack.layers[layerIndex]? with
  | Option.none => 0
  | some layer =>
    match layer.transitionToNext with
    | Option.none => 0
    | some transition =>
      if layerIndex ≥ stack.layers.length - 1 then 0
      else
        let blendHeight := transition.blendHeight.getD (2/10)
        let layerHeight := layer.height.getD 1
        let transitionStart := 1 - blendHeight
        let normalizedY := localY / layerHeight
        if normalizedY < transitionStart then 0
        else
          let transitionProgress := (normalizedY - transitionStart) / blendHeight
          match transition.easing with
          | some .linear => transitionProgress
          | some .smooth =>
              transitionProgress * transitionProgress * (3 - 2 * transitionProgress)
          | some .easeIn => transitionProgress * transitionProgress
          | some .easeOut =>
              1 - (1 - transitionProgress) * (1 - transitionProgress)
          | Option.none => transitionProgress

/-! ## Collaboration types (`collaboration.ts`) -/

/-- Role of a participant in a session (`ParticipantRole`). -/
inductive ParticipantRole
  | owner | editor | viewer
deriving DecidableEq, Repr

/-- Current status of a participant (`ParticipantStatus`). -/
inductive ParticipantStatus
  | online | away | offline
deriving DecidableEq, Repr

/-- Cursor position in 3D space (`CursorPosition`). -/
structure CursorPosition where
  x : Rat
  y : Rat
  z : Rat
  selectedCubeId : Option String
deriving DecidableEq, Repr

/-- Participant in a collaborative session (`Participant`). -/
structure Participant where
  id : String
  name : String
  color : String
  role : ParticipantRole
  status : ParticipantStatus
  cursor : Option CursorPosition
  avatarUrl : Option String
  joinedAt : String
  lastActiveAt : String
deriving DecidableEq, Repr

/-- Session settings (`SessionSettings`). -/
structure SessionSettings where
  name : String
  isOpen : Bool
  maxParticipants : Nat
  allowRoleRequests : Bool
  autoSaveInterval : Nat
deriving DecidableEq, Repr

/-- The value type `SpectralCube | FFTCubeConfig` stored in a session's
`cubes` map. -/
inductive SessionCube
  | spectral (c : SpectralCube)
  | fft (c : FFTCubeConfig)
deriving DecidableEq, Repr

/-- Collaborative session state (`Session`).  The JavaScript `Map` fields
are modelled by their ordered entry lists (a `Map` iterates in insertion
order with unique keys). -/
structure Session where
  id : String
  code : String
  settings : SessionSettings
  ownerId : String
  participants : List (String × Participant)
  cubes : List (String × SessionCube)
  createdAt : String
  modifiedAt : String
deriving DecidableEq, Repr

/-- Serializable version of `Session` (`SerializableSession`): the maps are
replaced by entry arrays. -/
structure SerializableSession where
  id : String
  code : String
  settings : SessionSettings
  ownerId : String
  participants : List (String × Participant)
  cubes : List (String × SessionCube)
  createdAt : String
  modifiedAt : String
deriving DecidableEq, Repr

/-- Type of collaborative action (`ActionType`). -/
inductive ActionType
  | cube_create | cube_update | cube_delete | cube_select
  | cursor_move | participant_join | participant_leave | session_settings_update
deriving DecidableEq, Repr

/-- Common fields of `BaseAction` other than the discriminant `type`. -/
structure BaseActionFields where
  id : String
  participantId : String
  timestamp : String
  sessionId : String
deriving DecidableEq, Repr

/-- `Partial<SpectralCube>`: every top-level field optional. -/
structure PartialSpectralCube where
  id : Option String
  prompt : Option String
  base : Option CubeBase
  gradients : Option (List CubeGradient)
  noise : Option CubeNoise
  physics : Option CubePhysics
  meta : Option CubeMeta
  boundary : Option CubeBoundary
deriving DecidableEq, Repr

/-- `Partial<FFTCubeConfig>`: every top-level field optional. -/
structure PartialFFTCubeConfig where
  id : Option String
  prompt : Option String
  is_magical : Option Bool
  fft_size : Option Nat
  energy_capacity : Option Rat
  current_energy : Option Rat
  channels : Option FFTChannels
  physics : Option FFTCubePhysics
  meta : Option CubeMeta
  boundary : Option CubeBoundary
deriving DecidableEq, Repr

/-- `Partial<SpectralCube | FFTCubeConfig>` (the TypeScript `Partial`
distributes over the union). -/
inductive PartialSessionCube
  | spectral (c : PartialSpectralCube)
  | fft (c : PartialFFTCubeConfig)
deriving DecidableEq, Repr

/-- `Partial<SessionSettings>`: every field optional. -/
structure PartialSessionSettings where
  name : Option String
  isOpen : Option Bool
  maxParticipants : Option Nat
  allowRoleRequests : Option Bool
  autoSaveInterval : Option Nat
deriving DecidableEq, Repr

/-- Reason payload of `ParticipantLeaveAction`. -/
inductive LeaveReason
  | manual | timeout | kicked
deriving DecidableEq, Repr

/-- Union type of all collaborative actions (`CollaborativeAction`): one
constructor per member interface, each carrying the `BaseAction` fields and
its payload. -/
inductive CollaborativeAction
  | cubeCreate (base : BaseActionFields) (cube : SessionCube)
  | cubeUpdate (base : BaseActionFields) (cubeId : String)
      (changes : PartialSessionCube) (previousState : Option SessionCube)
  | cubeDelete (base : BaseActionFields) (cubeId : String)
      (deletedCube : Option SessionCube)
  | cubeSelect (base : BaseActionFields) (cubeId : Option String)
  | cursorMove (base : BaseActionFields) (position : CursorPosition)
  | participantJoin (base : BaseActionFields) (participant : Participant)
  | participantLeave (base : BaseActionFields) (reason : Option LeaveReason)
  | sessionSettingsUpdate (base : BaseActionFields)
      (settings : PartialSessionSettings)
deriving DecidableEq, Repr

/-- The literal `type` discriminant of a `CollaborativeAction`. -/
def CollaborativeAction.type : CollaborativeAction → ActionType
  | .cubeCreate .. => .cube_create
  | .cubeUpdate .. => .cube_update
  | .cubeDelete .. => .cube_delete
  | .cubeSelect .. => .cube_select
  | .cursorMove .. => .cursor_move
  | .participantJoin .. => .participant_join
  | .participantLeave .. => .participant_leave
  | .sessionSettingsUpdate .. => .session_settings_update

/-- The palette inside `generateParticipantColor`. -/
def participantColorPalette : List String :=
  ["#FF6B6B", "#4ECDC4", "#45B7D1", "#96CEB4", "#FFEAA7",
   "#DDA0DD", "#98D8C8", "#F7DC6F", "#BB8FCE", "#85C1E9"]

/-- `generateParticipantColor()`: `colors[Math.floor(Math.random() * colors.length)]`.
The `Math.random()` draw is the explicit parameter `r`. -/
def generateParticipantColor (r : Rat) : String :=
  participantColorPalette.getD (⌊r * (participantColorPalette.length : Rat)⌋).toNat ""

/-- The unambiguous alphabet inside `generateSessionCode`. -/
def sessionCodeAlphabet : List Char :=
  "ABCDEFGHJKMNPQRSTUVWXYZ23456789".toList

/-- `generateSessionCode()`: six successive `Math.random()` draws, modelled
by the stream `rand`, each selecting one character of the alphabet. -/
def generateSessionCode (rand : Nat → Rat) : String :=
  String.mk <| (List.range 6).map fun i =>
    sessionCodeAlphabet.getD (⌊rand i * (sessionCodeAlphabet.length : Rat)⌋).toNat ' '

/-- `generateActionId()`: `` `${Date.now()}-${Math.random().toString(36).substring(2, 9)}` ``.
`Date.now()` is the explicit parameter `now`; the random suffix is modelled
by `suffixOf` applied to the `Math.random()` draw, where `suffixOf` maps a
draw to the substring its base-36 expansion yields. -/
def generateActionId (suffixOf : Rat → String) (now : Nat) (r : Rat) : String :=
  toString now ++ "-" ++ suffixOf r

/-- `isCubeModificationAction(action)`:
`['cube_create', 'cube_update', 'cube_delete'].includes(action.type)`. -/
def isCubeModificationAction (action : CollaborativeAction) : Bool :=
  [ActionType.cube_create, ActionType.cube_update, ActionType.cube_delete].contains
    action.type

/-- `isPresenceAction(action)`:
`['cursor_move', 'participant_join', 'participant_leave'].includes(action.type)`. -/
def isPresenceAction (action : CollaborativeAction) : Bool :=
  [ActionType.cursor_move, ActionType.participant_join,
   ActionType.participant_leave].contains action.type

/-- `serializeSession(session)`: copies the scalar fields and turns each
`Map` into its entry array (`Array.from(m.entries())`, the identity on the
entry-list model). -/
def serializeSession (session : Session) : SerializableSession :=
  { id := session.id
    code := session.code
    settings := session.settings
    ownerId := session.ownerId
    participants := session.participants
    cubes := session.cubes
    createdAt := session.createdAt
    modifiedAt := session.modifiedAt }

/-- One step of JavaScript `Map` construction: `m.set(k, v)` updates the
value in place when `k` is already present (keeping its position) and
appends the entry otherwise. -/
def jsMapSet {V : Type} (m : List (String × V)) (k : String) (v : V) :
    List (String × V) :=
  if m.any (fun kv => kv.1 = k) then
    m.map fun kv => if kv.1 = k then (k, v) else kv
  else m ++ [(k, v)]

/-- `new Map(entries)`: inserts the entries left to right. -/
def jsNewMap {V : Type} (entries : List (String × V)) : List (String × V) :=
  entries.foldl (fun m kv => jsMapSet m kv.1 kv.2) []

/-- `deserializeSession(serializable)`: copies the scalar fields and
rebuilds each `Map` with `new Map(entries)`. -/
def deserializeSession (serializable : SerializableSession) : Session :=
  { id := serializable.id
    code := serializable.code
    settings := serializable.settings
    ownerId := serializable.ownerId
    participants := jsNewMap serializable.participants
    cubes := jsNewMap serializable.cubes
    createdAt := serializable.createdAt
    modifiedAt := serializable.modifiedAt }

/-! ## Energy-cube shader uniforms (`energy-cube.ts`) -/

/-- Complete energy cube configuration (`EnergyCubeConfig` of
`energy-cube.ts`; it reuses the `FFTChannel` shape). -/
structure EnergyCubeConfig where
  channelR : Option FFTChannel
  channelG : Option FFTChannel
  channelB : Option FFTChannel
  channelA : Option FFTChannel
  energyCapacity : Option Rat
  coherenceLoss : Option Rat
  fractureThreshold : Option Rat
deriving DecidableEq, Repr

/-- Visualization mode union (`VisualizationMode`). -/
inductive VisualizationMode
  | energy | amplitude | phase
deriving DecidableEq, Repr

/-- `visualizationModeToInt(mode)`. -/
def visualizationModeToInt (mode : VisualizationMode) : Nat :=
  match mode with
  | .energy => 0
  | .amplitude => 1
  | .phase => 2

/-- The `ChannelMask` constant object. -/
def ChannelMask.R : Nat := 1
/-- `ChannelMask.G`. -/
def ChannelMask.G : Nat := 2
/-- `ChannelMask.B`. -/
def ChannelMask.B : Nat := 4
/-- `ChannelMask.A`. -/
def ChannelMask.A : Nat := 8
/-- `ChannelMask.RGB`. -/
def ChannelMask.RGB : Nat := 7
/-- `ChannelMask.RGBA`. -/
def ChannelMask.RGBA : Nat := 15

/-- Return shape of `channelToUniforms`. -/
structure ChannelUniformData where
  count : Nat
  coeffs : List (List Rat)
  freqZ : List Rat
deriving DecidableEq, Repr

/-- `channelToUniforms(channel)`: caps the channel at 8 coefficients and
pads the uniform arrays with zeros.  The `getD` default is never reached:
inside the `i < count` branch, `i` is a valid index of `coefficients`. -/
def channelToUniforms (channel : Option FFTChannel) : ChannelUniformData :=
  match channel with
  | Option.none =>
    { count := 0
      coeffs := List.replicate 8 [0, 0, 0, 0]
      freqZ := List.replicate 8 0 }
  | some channel =>
    let count := min channel.coefficients.length 8
    { count := count
      coeffs := (List.range 8).map fun i =>
        if i < count then
          let c := channel.coefficients.getD i ⟨0, 0, 0, 0, 0⟩
          [c.amplitude, c.phase, c.freqX, c.freqY]
        else [0, 0, 0, 0]
      freqZ := (List.range 8).map fun i =>
        if i < count then (channel.coefficients.getD i ⟨0, 0, 0, 0, 0⟩).freqZ
        else 0 }

/-- The uniforms record built by `createEnergyUniforms`, with each
`{ value: ... }` wrapper flattened to its typed value. -/
structure EnergyUniforms where
  uTime : Rat
  uEnergyScale : Rat
  uGlowIntensity : Rat
  uDCAmplitude : List Rat
  uDCPhase : List Rat
  uCoeffCountR : Nat
  uCoeffCountG : Nat
  uCoeffCountB : Nat
  uCoeffCountA : Nat
  uCoeffR : List (List Rat)
  uCoeffRFreqZ : List Rat
  uCoeffG : List (List Rat)
  uCoeffGFreqZ : List Rat
  uCoeffB : List (List Rat)
  uCoeffBFreqZ : List Rat
  uCoeffA : List (List Rat)
  uCoeffAFreqZ : List Rat
  uEnergyCapacity : Rat
  uCoherenceLoss : Rat
  uFractureThreshold : Rat
  uVisualizationMode : Nat
  uChannelMask : Nat
  uLightDirection : List Rat
  uLightColor : List Rat
  uAmbientIntensity : Rat
  uBoundaryMode : Nat
  uNeighborInfluence : Rat
  uGridPosition : List Rat
deriving DecidableEq, Repr

/-- `createEnergyUniforms(config, options)`; the destructured option
defaults of the source become Lean default parameter values. -/
def createEnergyUniforms (config : EnergyCubeConfig)
    (gridPosition : Rat × Rat × Rat := (0, 0, 0))
    (time : Rat := 0)
    (visualizationMode : VisualizationMode := .energy)
    (channelMask : Nat := ChannelMask.RGBA)
    (energyScale : Rat := 1)
    (glowIntensity : Rat := 5/10) : EnergyUniforms :=
  let rData := channelToUniforms config.channelR
  let gData := channelToUniforms config.channelG
  let bData := channelToUniforms config.channelB
  let aData := channelToUniforms config.channelA
  { uTime := time
    uEnergyScale := energyScale
    uGlowIntensity := glowIntensity
    uDCAmplitude :=
      [(config.channelR.map FFTChannel.dcAmplitude).getD (5/10),
       (config.channelG.map FFTChannel.dcAmplitude).getD (5/10),
       (config.channelB.map FFTChannel.dcAmplitude).getD (5/10),
       (config.channelA.map FFTChannel.dcAmplitude).getD 1]
    uDCPhase :=
      [(config.channelR.map FFTChannel.dcPhase).getD 0,
       (config.channelG.map FFTChannel.dcPhase).getD 0,
       (config.channelB.map FFTChannel.dcPhase).getD 0,
       (config.channelA.map FFTChannel.dcPhase).getD 0]
    uCoeffCountR := rData.count
    uCoeffCountG := gData.count
    uCoeffCountB := bData.count
    uCoeffCountA := aData.count
    uCoeffR := rData.coeffs
    uCoeffRFreqZ := rData.freqZ
    uCoeffG := gData.coeffs
    uCoeffGFreqZ := gData.freqZ
    uCoeffB := bData.coeffs
    uCoeffBFreqZ := bData.freqZ
    uCoeffA := aData.coeffs
    uCoeffAFreqZ := aData.freqZ
    uEnergyCapacity := config.energyCapacity.getD 100
    uCoherenceLoss := config.coherenceLoss.getD 0
    uFractureThreshold := config.fractureThreshold.getD 0
    uVisualizationMode := visualizationModeToInt visualizationMode
    uChannelMask := channelMask
    uLightDirection := [1, 1, 1]
    uLightColor := [1, 1, 1]
    uAmbientIntensity := 4/10
    uBoundaryMode := 1
    uNeighborInfluence := 5/10
    uGridPosition := [gridPosition.1, gridPosition.2.1, gridPosition.2.2] }

/-- Selector for one of the four FFT channels. -/
inductive ColorChannel
  | R | G | B | A
deriving DecidableEq, Repr

/-- The configured channel belonging to a selector. -/
def EnergyCubeConfig.channel (config : EnergyCubeConfig) :
    ColorChannel → Option FFTChannel
  | .R => config.channelR
  | .G => config.channelG
  | .B => config.channelB
  | .A => config.channelA

/-- The `uCoeffCount` uniform belonging to a channel selector. -/
def EnergyUniforms.coeffCount (u : EnergyUniforms) : ColorChannel → Nat
  | .R => u.uCoeffCountR
  | .G => u.uCoeffCountG
  | .B => u.uCoeffCountB
  | .A => u.uCoeffCountA

/-- The `uCoeff` coefficient-array uniform belonging to a channel selector. -/
def EnergyUniforms.coeffArray (u : EnergyUniforms) :
    ColorChannel → List (List Rat)
  | .R => u.uCoeffR
  | .G => u.uCoeffG
  | .B => u.uCoeffB
  | .A => u.uCoeffA

/-- The `uCoeffFreqZ` uniform belonging to a channel selector. -/
def EnergyUniforms.freqZArray (u : EnergyUniforms) : ColorChannel → List Rat
  | .R => u.uCoeffRFreqZ
  | .G => u.uCoeffGFreqZ
  | .B => u.uCoeffBFreqZ
  | .A => u.uCoeffAFreqZ

end Isocubic



namespace Isocubic

/-! ## Helper lemmas about the embedding -/

/-- C1 helper: the per-layer weight contribution
`(physics?.density ?? 2.5) * (height ?? 1)`. -/
def layerWeight (layer : StackLayer) : Rat :=
  (layer.cubeConfig.physics.bind CubePhysics.density).getD (25/10) * layer.height.getD 1

/-- C3 helper: the per-layer height contribution `height ?? 1`. -/
def layerEffHeight (layer : StackLayer) : Rat :=
  layer.height.getD 1

/-- Shared concrete cube fixture for witnesses. -/
def sampleCube : SpectralCube :=
  { id := "cube"
    prompt := none
    base := { color := (1/2, 1/2, 1/2), roughness := none, transparency := none }
    gradients := none
    noise := none
    physics := none
    meta := none
    boundary := none }

/-- Shared concrete layer fixture for witnesses (no explicit height,
no transition, no physics). -/
def sampleLayer : StackLayer :=
  { id := "layer"
    name := none
    position := StackLayerPosition.middle
    cubeConfig := sampleCube
    height := none
    transitionToNext := none }

/-- The easing formulas named by the specification: `t` for linear,
`t²(3 − 2t)` for smooth, `t²` for ease-in, `1 − (1 − t)²` for ease-out.
Transcribed from the claim text for comparison with the source. -/
def claimEasingFormula (e : Easing) (t : Rat) : Rat :=
  match e with
  | .linear => t
  | .smooth => t * t * (3 - 2 * t)
  | .easeIn => t * t
  | .easeOut => 1 - (1 - t) * (1 - t)

/-- A linear-easing transition fixture. -/
def linearTransition : StackTransition :=
  { type := StackTransitionType.blend
    blendHeight := none
    easing := some Easing.linear
    blendNoise := none
    blendGradients := none }

/-- A layer fixture carrying `linearTransition`. -/
def linearLayer : StackLayer :=
  { sampleLayer with transitionToNext := some linearTransition }

/-- A two-layer stack fixture whose bottom layer blends linearly. -/
def linearStack : CubeStackConfig :=
  { id := "b"
    prompt := none
    layers := [linearLayer, sampleLayer]
    totalHeight := 2
    physics := none
    boundaryMode := none
    neighborInfluence := none
    meta := none }

/-- A layer of height 1/2, used to refute the claimed unconditional
`[0, 1]` range. -/
def shortLayer : StackLayer := { sampleLayer with height := some (1/2) }

/-- A stack whose bottom layer has height 1/2 and receives the default
smooth transition from `createCubeStack`. -/
def shortStack : CubeStackConfig :=
  createCubeStack "s" [shortLayer, sampleLayer] none "t"

/-- Shared participant fixture. -/
def sampleParticipant : Participant :=
  { id := "p1"
    name := "Alice"
    color := "#FF6B6B"
    role := ParticipantRole.owner
    status := ParticipantStatus.online
    cursor := none
    avatarUrl := none
    joinedAt := "2024-01-01T00:00:00Z"
    lastActiveAt := "2024-01-01T00:00:00Z" }

/-- Shared session fixture with two participants and one cube. -/
def sampleSession : Session :=
  { id := "s1"
    code := "ABC234"
    settings := { name := "Untitled Session", isOpen := true, maxParticipants := 10,
                  allowRoleRequests := true, autoSaveInterval := 30000 }
    ownerId := "p1"
    participants := [("p1", sampleParticipant),
                     ("p2", { sampleParticipant with id := "p2" })]
    cubes := [("c1", SessionCube.spectral sampleCube)]
    createdAt := "2024-01-01T00:00:00Z"
    modifiedAt := "2024-01-02T00:00:00Z" }

/-- Shared FFT coefficient fixture. -/
def sampleFFTCoefficient : FFTCoefficient :=
  { amplitude := 1/4, phase := 0, freqX := 1, freqY := 0, freqZ := 2 }

/-- Shared FFT channel fixture with two coefficients. -/
def sampleFFTChannel : FFTChannel :=
  { dcAmplitude := 1/2
    dcPhase := 0
    coefficients := [sampleFFTCoefficient,
      { amplitude := 1/8, phase := 1, freqX := 0, freqY := 1, freqZ := 3 }] }

/-- Shared energy config fixture: an R channel, the other channels
missing. -/
def sampleEnergyConfig : EnergyCubeConfig :=
  { channelR := some sampleFFTChannel
    channelG := none
    channelB := none
    channelA := none
    energyCapacity := none
    coherenceLoss := none
    fractureThreshold := none }

theorem length_mapWithIndex {α β : Type} (f : Nat → α → β) :
    ∀ (s : Nat) (l : List α), (mapWithIndex f s l).length = l.length
  | _, [] => rfl
  | s, _ :: as => congrArg Nat.succ (length_mapWithIndex f (s + 1) as)

theorem getElem?_mapWithIndex {α β : Type} (f : Nat → α → β) :
    ∀ (s : Nat) (l : List α) (i : Nat),
      (mapWithIndex f s l)[i]? = (l[i]?).map (f (s + i))
  | _, [], _ => by simp [mapWithIndex]
  | s, a :: as, 0 => by simp [mapWithIndex]
  | s, a :: as, i + 1 => by
    simp only [mapWithIndex, List.getElem?_cons_succ]
    rw [getElem?_mapWithIndex f (s + 1) as i, Nat.add_assoc, Nat.add_comm 1 i]

theorem map_mapWithIndex_of_proj {α β : Type} (f : Nat → α → α) (g : α → β)
    (h : ∀ i x, g (f i x) = g x) :
    ∀ (s : Nat) (l : List α), (mapWithIndex f s l).map g = l.map g
  | _, [] => rfl
  | s, a :: as => by
    simp only [mapWithIndex, List.map_cons, h, map_mapWithIndex_of_proj f g h (s + 1) as]

theorem foldl_add_of_map {α : Type} (g : α → Rat) :
    ∀ (l : List α) (init : Rat),
      l.foldl (fun sum x => sum + g x) init = init + (l.map g).sum
  | [], init => by simp
  | a :: as, init => by
    simp only [List.foldl_cons, List.map_cons, List.sum_cons,
      foldl_add_of_map g as (init + g a)]
    ring

theorem positionLayer_cubeConfig (n i : Nat) (l : StackLayer) :
    (positionLayer n i l).cubeConfig = l.cubeConfig := rfl

theorem positionLayer_height (n i : Nat) (l : StackLayer) :
    (positionLayer n i l).height = l.height := rfl

theorem positionLayer_id (n i : Nat) (l : StackLayer) :
    (positionLayer n i l).id = l.id := rfl

theorem positionLayer_name (n i : Nat) (l : StackLayer) :
    (positionLayer n i l).name = l.name := rfl

theorem createCubeStack_layers (id : String) (layers : List StackLayer)
    (prompt : Option String) (now : String) :
    (createCubeStack id layers prompt now).layers
      = mapWithIndex (positionLayer layers.length) 0 layers := rfl

/-- C1: For every list of layers, `createCubeStack` returns a stack whose
`physics.totalWeight` equals the sum over all layers of
(density defaulting to 2.5) times (height defaulting to 1). -/
theorem createCubeStack_totalWeight_eq_sum_density_mul_height
    (id : String) (layers : List StackLayer) (prompt : Option String) (now : String) :
    ((createCubeStack id layers prompt now).physics.bind StackPhysics.totalWeight)
      = some ((layers.map layerWeight).sum) := by
  have hmap : (mapWithIndex (positionLayer layers.length) 0 layers).map layerWeight
      = layers.map layerWeight :=
    map_mapWithIndex_of_proj (positionLayer layers.length) layerWeight
      (fun _ _ => rfl) 0 layers
  show some (List.foldl (fun sum layer => sum + layerWeight layer) 0
      (mapWithIndex (positionLayer layers.length) 0 layers))
    = some ((layers.map layerWeight).sum)
  rw [foldl_add_of_map layerWeight, hmap, zero_add]

/-- C3: the `totalHeight` of a created stack is the sum of the layers'
heights (a missing height counted as 1). -/
theorem createCubeStack_totalHeight_eq_sum_heights
    (id : String) (layers : List StackLayer) (prompt : Option String) (now : String) :
    (createCubeStack id layers prompt now).totalHeight
      = (layers.map layerEffHeight).sum := by
  have hmap : (mapWithIndex (positionLayer layers.length) 0 layers).map layerEffHeight
      = layers.map layerEffHeight :=
    map_mapWithIndex_of_proj (positionLayer layers.length) layerEffHeight
      (fun _ _ => rfl) 0 layers
  show List.foldl (fun sum layer => sum + layerEffHeight layer) 0
      (mapWithIndex (positionLayer layers.length) 0 layers)
    = (layers.map layerEffHeight).sum
  rw [foldl_add_of_map layerEffHeight, hmap, zero_add]

/-- C7: `createCubeStack` keeps the given layers in order and only rewrites
`position` and `transitionToNext`: length and the per-index `id`, `name`,
`cubeConfig` and `height` are unchanged. -/
theorem createCubeStack_preserves_layer_fields
    (id : String) (layers : List StackLayer) (prompt : Option String) (now : String) :
    (createCubeStack id layers prompt now).layers.length = layers.length ∧
    ∀ i : Nat,
      ((createCubeStack id layers prompt now).layers[i]?).map StackLayer.id
          = (layers[i]?).map StackLayer.id ∧
      ((createCubeStack id layers prompt now).layers[i]?).map StackLayer.name
          = (layers[i]?).map StackLayer.name ∧
      ((createCubeStack id layers prompt now).layers[i]?).map StackLayer.cubeConfig
          = (layers[i]?).map StackLayer.cubeConfig ∧
      ((createCubeStack id layers prompt now).layers[i]?).map StackLayer.height
          = (layers[i]?).map StackLayer.height := by
  rw [createCubeStack_layers]
  refine ⟨length_mapWithIndex _ 0 layers, fun i => ?_⟩
  rw [getElem?_mapWithIndex]
  cases layers[i]? <;>
    simp [positionLayer_id, positionLayer_name, positionLayer_cubeConfig, positionLayer_height]

/-- C9: positions assigned by `createCubeStack` follow the
single/bottom/middle/top rule, and `transitionToNext` is populated
(defaulting to `DEFAULT_STACK_TRANSITION`) exactly on layers whose assigned
position is neither `top` nor `single`. -/
theorem createCubeStack_position_invariant
    (id : String) (layers : List StackLayer) (prompt : Option String) (now : String)
    (i : Nat) (lin lout : StackLayer)
    (hin : layers[i]? = some lin)
    (hout : (createCubeStack id layers prompt now).layers[i]? = some lout) :
    lout.position = (if layers.length = 1 then StackLayerPosition.single
      else if i = 0 then StackLayerPosition.bottom
      else if i = layers.length - 1 then StackLayerPosition.top
      else StackLayerPosition.middle) ∧
    lout.transitionToNext =
      (if lout.position = StackLayerPosition.top ∨ lout.position = StackLayerPosition.single
       then none
       else some (lin.transitionToNext.getD DEFAULT_STACK_TRANSITION)) := by
  rw [createCubeStack_layers, getElem?_mapWithIndex, Nat.zero_add, hin,
    Option.map_some'] at hout
  have hlout : lout = positionLayer layers.length i lin := (Option.some.inj hout).symm
  subst hlout
  have hp : (positionLayer layers.length i lin).position
      = (if layers.length = 1 then StackLayerPosition.single
        else if i = 0 then StackLayerPosition.bottom
        else if i = layers.length - 1 then StackLayerPosition.top
        else StackLayerPosition.middle) := rfl
  refine ⟨hp, ?_⟩
  rw [hp]
  have ht : (positionLayer layers.length i lin).transitionToNext
      = (if ¬(if layers.length = 1 then StackLayerPosition.single
            else if i = 0 then StackLayerPosition.bottom
            else if i = layers.length - 1 then StackLayerPosition.top
            else StackLayerPosition.middle) = StackLayerPosition.top ∧
          ¬(if layers.length = 1 then StackLayerPosition.single
            else if i = 0 then StackLayerPosition.bottom
            else if i = layers.length - 1 then StackLayerPosition.top
            else StackLayerPosition.middle) = StackLayerPosition.single
        then some (lin.transitionToNext.getD DEFAULT_STACK_TRANSITION)
        else none) := rfl
  rw [ht]
  by_cases h1 : (if layers.length = 1 then StackLayerPosition.single
      else if i = 0 then StackLayerPosition.bottom
      else if i = layers.length - 1 then StackLayerPosition.top
      else StackLayerPosition.middle) = StackLayerPosition.top <;>
    by_cases h2 : (if layers.length = 1 then StackLayerPosition.single
      else if i = 0 then StackLayerPosition.bottom
      else if i = layers.length - 1 then StackLayerPosition.top
      else StackLayerPosition.middle) = StackLayerPosition.single <;>
    simp [h1, h2]

/-- C9 witness: a two-layer stack, index 0 becomes `bottom` and receives
the default transition. -/
theorem createCubeStack_position_invariant_witness :
    (([sampleLayer, sampleLayer] : List StackLayer)[0]? = some sampleLayer) ∧
    ((createCubeStack "s" [sampleLayer, sampleLayer] none "t").layers[0]?
        = some (positionLayer 2 0 sampleLayer)) ∧
    (positionLayer 2 0 sampleLayer).position = StackLayerPosition.bottom ∧
    (positionLayer 2 0 sampleLayer).transitionToNext = some DEFAULT_STACK_TRANSITION := by
  have h1 : (([sampleLayer, sampleLayer] : List StackLayer))[0]? = some sampleLayer := rfl
  have h2 : (createCubeStack "s" [sampleLayer, sampleLayer] none "t").layers[0]?
      = some (positionLayer 2 0 sampleLayer) := rfl
  have main := createCubeStack_position_invariant "s" [sampleLayer, sampleLayer] none "t" 0
    sampleLayer (positionLayer 2 0 sampleLayer) h1 h2
  have hpos : (positionLayer 2 0 sampleLayer).position = StackLayerPosition.bottom := by
    rw [main.1]; norm_num
  refine ⟨h1, h2, hpos, ?_⟩
  rw [main.2, hpos]
  simp [sampleLayer]

/-- C2: in a non-last layer of height 1 whose transition has blend height
`b`, `getLayerBlendFactor` applies the claimed easing formula to
`t = (localY − (1 − b)) / b` inside the transition zone and returns 0
below it. -/
theorem getLayerBlendFactor_easing_formula
    (stack : CubeStackConfig) (i : Nat) (layer : StackLayer)
    (transition : StackTransition) (e : Easing) (b localY : Rat)
    (hlayer : stack.layers[i]? = some layer)
    (htrans : layer.transitionToNext = some transition)
    (heasing : transition.easing = some e)
    (hb : transition.blendHeight.getD (2/10) = b)
    (hheight : layer.height.getD 1 = 1)
    (hlast : i < stack.layers.length - 1) :
    (1 - b ≤ localY →
      getLayerBlendFactor stack i localY
        = claimEasingFormula e ((localY - (1 - b)) / b)) ∧
    (localY < 1 - b → getLayerBlendFactor stack i localY = 0) := by
  have hne : ¬ i ≥ stack.layers.length - 1 := Nat.not_le.mpr hlast
  constructor <;> intro hzone <;>
    simp only [getLayerBlendFactor, hlayer, htrans, heasing, hb, hheight, div_one,
      if_neg hne]
  · rw [if_neg (not_lt.mpr hzone)]
    cases e <;> simp [claimEasingFormula]
  · rw [if_pos hzone]

/-- C2 witness: at `localY = 9/10` in the default-width transition zone the
linear blend factor is `t = (9/10 − 8/10)/(2/10) = 1/2`, and below the
zone it is 0. -/
theorem getLayerBlendFactor_easing_formula_witness :
    (linearStack.layers[0]? = some linearLayer) ∧
    (linearLayer.transitionToNext = some linearTransition) ∧
    (linearTransition.easing = some Easing.linear) ∧
    (linearTransition.blendHeight.getD (2/10) = 2/10) ∧
    (linearLayer.height.getD 1 = 1) ∧
    (0 < linearStack.layers.length - 1) ∧
    ((1 : Rat) - 2/10 ≤ 9/10) ∧
    getLayerBlendFactor linearStack 0 (9/10)
      = claimEasingFormula Easing.linear ((9/10 - (1 - 2/10)) / (2/10)) ∧
    ((1 : Rat)/2 < 1 - 2/10) ∧
    getLayerBlendFactor linearStack 0 (1/2) = 0 := by
  have main := getLayerBlendFactor_easing_formula linearStack 0 linearLayer
    linearTransition Easing.linear (2/10) (9/10) rfl rfl rfl rfl rfl
    (by norm_num [linearStack])
  have below := getLayerBlendFactor_easing_formula linearStack 0 linearLayer
    linearTransition Easing.linear (2/10) (1/2) rfl rfl rfl rfl rfl
    (by norm_num [linearStack])
  exact ⟨rfl, rfl, rfl, rfl, rfl, by norm_num [linearStack], by norm_num,
    main.1 (by norm_num), by norm_num, below.2 (by norm_num)⟩

theorem getLayerBlendFactor_eq_zero_of (stack : CubeStackConfig) (i : Nat)
    (localY : Rat) (layer : StackLayer)
    (hlayer : stack.layers[i]? = some layer)
    (h : stack.layers.length - 1 ≤ i ∨ layer.transitionToNext = none) :
    getLayerBlendFactor stack i localY = 0 := by
  rcases htr : layer.transitionToNext with _ | t
  · simp only [getLayerBlendFactor, hlayer, htr]
  · rcases h with h | h
    · simp only [getLayerBlendFactor, hlayer, htr, ge_iff_le, if_pos h]
    · exact absurd (htr ▸ h) (by simp)

theorem smoothstep_bounds (T : Rat) (h0 : 0 ≤ T) (h1 : T ≤ 1) :
    0 ≤ T * T * (3 - 2 * T) ∧ T * T * (3 - 2 * T) ≤ 1 := by
  constructor <;> nlinarith [sq_nonneg (1 - T), sq_nonneg T, mul_nonneg h0 h0]

theorem easeIn_bounds (T : Rat) (h0 : 0 ≤ T) (h1 : T ≤ 1) :
    0 ≤ T * T ∧ T * T ≤ 1 := by
  constructor <;> nlinarith

theorem easeOut_bounds (T : Rat) (h0 : 0 ≤ T) (h1 : T ≤ 1) :
    0 ≤ 1 - (1 - T) * (1 - T) ∧ 1 - (1 - T) * (1 - T) ≤ 1 := by
  constructor <;> nlinarith [sq_nonneg (1 - T)]

/-- C10 (amended): for a valid layer index, `0 ≤ localY ≤` the layer's
height, nonzero layer height and nonzero blend height, the blend factor
lies in `[0, 1]`; and it is exactly 0 on the last layer or when the layer
has no `transitionToNext`. -/
theorem getLayerBlendFactor_bounded
    (stack : CubeStackConfig) (i : Nat) (layer : StackLayer) (localY : Rat)
    (hlayer : stack.layers[i]? = some layer)
    (hy0 : 0 ≤ localY)
    (hyh : localY ≤ layer.height.getD 1)
    (hh : layer.height.getD 1 ≠ 0)
    (hb : ∀ transition, layer.transitionToNext = some transition →
        transition.blendHeight.getD (2/10) ≠ 0) :
    (0 ≤ getLayerBlendFactor stack i localY ∧ getLayerBlendFactor stack i localY ≤ 1) ∧
    ((i = stack.layers.length - 1 ∨ layer.transitionToNext = none) →
      getLayerBlendFactor stack i localY = 0) := by
  constructor
  · rcases htr : layer.transitionToNext with _ | t
    · rw [getLayerBlendFactor_eq_zero_of stack i localY layer hlayer (Or.inr htr)]
      norm_num
    · by_cases hlast : stack.layers.length - 1 ≤ i
      · rw [getLayerBlendFactor_eq_zero_of stack i localY layer hlayer (Or.inl hlast)]
        norm_num
      · have hh' : 0 < layer.height.getD 1 :=
          lt_of_le_of_ne (le_trans hy0 hyh) (Ne.symm hh)
        have hY0 : 0 ≤ localY / layer.height.getD 1 := div_nonneg hy0 hh'.le
        have hY1 : localY / layer.height.getD 1 ≤ 1 := (div_le_one hh').mpr hyh
        have hBne : t.blendHeight.getD (2/10) ≠ 0 := hb t htr
        rcases heas : t.easing with _ | e
        · simp only [getLayerBlendFactor, hlayer, htr, heas, ge_iff_le, if_neg hlast]
          split_ifs with hlt
          · norm_num
          · push_neg at hlt
            have hB0 : 0 < t.blendHeight.getD (2/10) := by
              rcases lt_or_eq_of_le (by linarith : (0:Rat) ≤ t.blendHeight.getD (2/10))
                with h | h
              · exact h
              · exact absurd h.symm hBne
            constructor
            · exact div_nonneg (by linarith) hB0.le
            · rw [div_le_one hB0]; linarith
        · have hB0 : ∀ hlt : 1 - t.blendHeight.getD (2/10) ≤ localY / layer.height.getD 1,
              0 < t.blendHeight.getD (2/10) := by
            intro hlt
            rcases lt_or_eq_of_le (by linarith : (0:Rat) ≤ t.blendHeight.getD (2/10))
              with h | h
            · exact h
            · exact absurd h.symm hBne
          cases e <;>
            simp only [getLayerBlendFactor, hlayer, htr, heas, ge_iff_le, if_neg hlast] <;>
            split_ifs with hlt
          · norm_num
          · push_neg at hlt
            have hB := hB0 hlt
            exact ⟨div_nonneg (by linarith) hB.le, by rw [div_le_one hB]; linarith⟩
          · norm_num
          · push_neg at hlt
            have hB := hB0 hlt
            have hT0 : 0 ≤ (localY / layer.height.getD 1 -
                (1 - t.blendHeight.getD (2/10))) / t.blendHeight.getD (2/10) :=
              div_nonneg (by linarith) hB.le
            have hT1 : (localY / layer.height.getD 1 -
                (1 - t.blendHeight.getD (2/10))) / t.blendHeight.getD (2/10) ≤ 1 := by
              rw [div_le_one hB]; linarith
            exact smoothstep_bounds _ hT0 hT1
          · norm_num
          · push_neg at hlt
            have hB := hB0 hlt
            have hT0 : 0 ≤ (localY / layer.height.getD 1 -
                (1 - t.blendHeight.getD (2/10))) / t.blendHeight.getD (2/10) :=
              div_nonneg (by linarith) hB.le
            have hT1 : (localY / layer.height.getD 1 -
                (1 - t.blendHeight.getD (2/10))) / t.blendHeight.getD (2/10) ≤ 1 := by
              rw [div_le_one hB]; linarith
            exact easeIn_bounds _ hT0 hT1
          · norm_num
          · push_neg at hlt
            have hB := hB0 hlt
            have hT0 : 0 ≤ (localY / layer.height.getD 1 -
                (1 - t.blendHeight.getD (2/10))) / t.blendHeight.getD (2/10) :=
              div_nonneg (by linarith) hB.le
            have hT1 : (localY / layer.height.getD 1 -
                (1 - t.blendHeight.getD (2/10))) / t.blendHeight.getD (2/10) ≤ 1 := by
              rw [div_le_one hB]; linarith
            exact easeOut_bounds _ hT0 hT1
  · intro h
    refine getLayerBlendFactor_eq_zero_of stack i localY layer hlayer ?_
    rcases h with h | h
    · exact Or.inl (le_of_eq h.symm)
    · exact Or.inr h

/-- C10 witness: concrete in-range evaluation on the linear two-layer
stack. -/
theorem getLayerBlendFactor_bounded_witness :
    (linearStack.layers[0]? = some linearLayer) ∧
    ((0:Rat) ≤ 9/10) ∧ ((9/10:Rat) ≤ linearLayer.height.getD 1) ∧
    (linearLayer.height.getD 1 ≠ 0) ∧
    (0 ≤ getLayerBlendFactor linearStack 0 (9/10) ∧
      getLayerBlendFactor linearStack 0 (9/10) ≤ 1) := by
  have hb : ∀ transition, linearLayer.transitionToNext = some transition →
      transition.blendHeight.getD (2/10) ≠ 0 := by
    intro transition htr
    have : transition = linearTransition :=
      (Option.some.inj ((by rfl :
        linearLayer.transitionToNext = some linearTransition) ▸ htr)).symm
    subst this
    norm_num [linearTransition]
  have main := getLayerBlendFactor_bounded linearStack 0 linearLayer (9/10) rfl
    (by norm_num) (by norm_num [linearLayer, sampleLayer])
    (by norm_num [linearLayer, sampleLayer]) hb
  exact ⟨rfl, by norm_num, by norm_num [linearLayer, sampleLayer],
    by norm_num [linearLayer, sampleLayer], main.1⟩

/-- C10 counterexample: at the valid index 0 and `localY = 1 ∈ [0, 1]`, the
bottom layer of `shortStack` (height 1/2, default smooth transition) yields
blend factor −324, far outside `[0, 1]`. -/
theorem getLayerBlendFactor_out_of_range :
    ((0:Rat) ≤ 1 ∧ (1:Rat) ≤ 1) ∧ (0 < shortStack.layers.length) ∧
    getLayerBlendFactor shortStack 0 1 = -324 ∧
    ¬ (0 ≤ getLayerBlendFactor shortStack 0 1 ∧
        getLayerBlendFactor shortStack 0 1 ≤ 1) := by
  have h : getLayerBlendFactor shortStack 0 1 = -324 := by
    norm_num +decide [getLayerBlendFactor, shortStack, createCubeStack, mapWithIndex,
      positionLayer, shortLayer, sampleLayer, DEFAULT_STACK_TRANSITION]
  refine ⟨⟨by norm_num, le_refl 1⟩, ?_, h, ?_⟩
  · rw [shortStack, createCubeStack_layers, length_mapWithIndex]
    norm_num
  · rw [h]; norm_num

/-- C5: the two type guards are exact on their three action types each,
mutually exclusive, and both reject `cube_select` and
`session_settings_update`. -/
theorem action_type_guards_partition (a : CollaborativeAction) :
    (isCubeModificationAction a = true ↔
      (a.type = ActionType.cube_create ∨ a.type = ActionType.cube_update ∨
        a.type = ActionType.cube_delete)) ∧
    (isPresenceAction a = true ↔
      (a.type = ActionType.cursor_move ∨ a.type = ActionType.participant_join ∨
        a.type = ActionType.participant_leave)) ∧
    ¬ (isCubeModificationAction a = true ∧ isPresenceAction a = true) ∧
    ((a.type = ActionType.cube_select ∨ a.type = ActionType.session_settings_update) →
      isCubeModificationAction a = false ∧ isPresenceAction a = false) := by
  cases a <;>
    simp only [isCubeModificationAction, isPresenceAction, CollaborativeAction.type] <;>
    decide

/-- C5 witness: concrete instances of the guard facts on a `cube_create`
action and a `cube_select` action. -/
theorem action_type_guards_partition_witness :
    (isCubeModificationAction (CollaborativeAction.cubeCreate
        ⟨"a1", "p1", "t1", "s1"⟩ (SessionCube.spectral sampleCube)) = true) ∧
    ((CollaborativeAction.cubeSelect ⟨"a2", "p2", "t2", "s2"⟩ none).type
        = ActionType.cube_select) ∧
    (isCubeModificationAction
        (CollaborativeAction.cubeSelect ⟨"a2", "p2", "t2", "s2"⟩ none) = false ∧
      isPresenceAction
        (CollaborativeAction.cubeSelect ⟨"a2", "p2", "t2", "s2"⟩ none) = false) := by
  have main1 := action_type_guards_partition (CollaborativeAction.cubeCreate
    ⟨"a1", "p1", "t1", "s1"⟩ (SessionCube.spectral sampleCube))
  have main2 := action_type_guards_partition
    (CollaborativeAction.cubeSelect ⟨"a2", "p2", "t2", "s2"⟩ none)
  exact ⟨main1.1.mpr (Or.inl rfl), rfl, main2.2.2.2 (Or.inl rfl)⟩

/-- C4 counterexample: two calls of `generateParticipantColor` whose
`Math.random()` draws are 0 and 19/20 (both legal draws in `[0, 1)`)
return different palette colors, so color generation is not a constant of
two calls. -/
theorem generateParticipantColor_not_deterministic :
    ((0:Rat) ≤ 0 ∧ (0:Rat) < 1) ∧ ((0:Rat) ≤ 19/20 ∧ (19/20:Rat) < 1) ∧
    generateParticipantColor 0 = "#FF6B6B" ∧
    generateParticipantColor (19/20) = "#85C1E9" ∧
    generateParticipantColor 0 ≠ generateParticipantColor (19/20) := by
  have h1 : generateParticipantColor 0 = "#FF6B6B" := by
    norm_num [generateParticipantColor, participantColorPalette]
  have h2 : generateParticipantColor (19/20) = "#85C1E9" := by
    norm_num [generateParticipantColor, participantColorPalette]
    decide
  refine ⟨⟨le_refl 0, by norm_num⟩, ⟨by norm_num, by norm_num⟩, h1, h2, ?_⟩
  rw [h1, h2]
  decide

/-- C4 (amended): the generators are pure functions of their random
draws (and, for action IDs, the current time): any legal color draw picks
a color from the 10-element palette, any legal draw sequence yields a
6-character session code over the 31-character unambiguous alphabet, and
action IDs agree whenever time and draw agree. -/
theorem generators_are_functions_of_their_draws :
    (∀ r : Rat, 0 ≤ r → r < 1 →
      generateParticipantColor r ∈ participantColorPalette) ∧
    (∀ rand : Nat → Rat, (∀ i, i < 6 → 0 ≤ rand i ∧ rand i < 1) →
      (generateSessionCode rand).length = 6 ∧
      ∀ c ∈ (generateSessionCode rand).toList, c ∈ sessionCodeAlphabet) ∧
    (∀ suffixOf : Rat → String, ∀ now : Nat, ∀ r r2 : Rat, r = r2 →
      generateActionId suffixOf now r = generateActionId suffixOf now r2) := by
  refine ⟨?_, ?_, ?_⟩
  · intro r h0 h1
    have h10 : participantColorPalette.length = 10 := by decide
    have hlt : (⌊r * (participantColorPalette.length : Rat)⌋).toNat
        < participantColorPalette.length := by
      rw [Int.toNat_lt' (by rw [h10]; norm_num)]
      refine Int.floor_lt.mpr ?_
      rw [h10]
      push_cast
      nlinarith
    rw [generateParticipantColor, List.getD_eq_getElem?_getD,
      List.getElem?_eq_getElem hlt]
    exact List.getElem_mem hlt
  · intro rand hrand
    constructor
    · rw [generateSessionCode]
      show (String.mk _).data.length = 6
      simp
    · intro c hc
      rw [generateSessionCode] at hc
      have hc : c ∈ (List.range 6).map (fun i =>
          sessionCodeAlphabet.getD
            (⌊rand i * (sessionCodeAlphabet.length : Rat)⌋).toNat ' ') := hc
      rcases List.mem_map.mp hc with ⟨i, hi, hci⟩
      rcases (hrand i (List.mem_range.mp hi)) with ⟨h0, h1⟩
      have h31 : sessionCodeAlphabet.length = 31 := by decide
      have hlt : (⌊rand i * (sessionCodeAlphabet.length : Rat)⌋).toNat
          < sessionCodeAlphabet.length := by
        rw [Int.toNat_lt' (by rw [h31]; norm_num)]
        refine Int.floor_lt.mpr ?_
        rw [h31]
        push_cast
        nlinarith
      rw [← hci, List.getD_eq_getElem?_getD, List.getElem?_eq_getElem hlt]
      exact List.getElem_mem hlt
  · intro suffixOf now r r2 h
    rw [h]

/-- C4 witness: concrete draws exercising the amended statement. -/
theorem generators_are_functions_of_their_draws_witness :
    ((0:Rat) ≤ 1/2 ∧ (1/2:Rat) < 1) ∧
    generateParticipantColor (1/2) ∈ participantColorPalette ∧
    (generateSessionCode (fun _ => 1/2)).length = 6 := by
  have main := generators_are_functions_of_their_draws
  exact ⟨⟨by norm_num, by norm_num⟩,
    main.1 (1/2) (by norm_num) (by norm_num),
    (main.2.1 (fun _ => 1/2) (fun i _ => ⟨by norm_num, by norm_num⟩)).1⟩

theorem jsNewMap_go {V : Type} :
    ∀ (l acc : List (String × V)),
      (((acc ++ l).map Prod.fst).Nodup) →
      l.foldl (fun m kv => jsMapSet m kv.1 kv.2) acc = acc ++ l
  | [], acc, _ => by simp
  | kv :: rest, acc, h => by
    have hsplit : ((acc.map Prod.fst) ++ ((kv :: rest).map Prod.fst)).Nodup := by
      rw [← List.map_append]; exact h
    have hnd := List.nodup_append.mp hsplit
    have hk : ∀ p ∈ acc, p.1 ≠ kv.1 := by
      intro p hp heq
      exact hnd.2.2 (List.mem_map_of_mem Prod.fst hp) (by simp [heq])
    have hany : acc.any (fun p => p.1 = kv.1) = false := by
      rw [List.any_eq_false]
      intro p hp
      simpa using hk p hp
    have hset : jsMapSet acc kv.1 kv.2 = acc ++ [kv] := by
      rw [jsMapSet, if_neg (by simp [hany])]
    have hrec := jsNewMap_go rest (acc ++ [kv]) (by simpa using h)
    rw [List.foldl_cons, hset, hrec]
    simp

theorem jsNewMap_eq_self {V : Type} (l : List (String × V))
    (h : (l.map Prod.fst).Nodup) : jsNewMap l = l := by
  simpa using jsNewMap_go l [] (by simpa using h)

/-- C8: deserializing a serialized session restores every field, including
the two maps entry-for-entry in order (a JavaScript `Map` always has
pairwise-distinct keys, the two `Nodup` hypotheses). -/
theorem deserializeSession_serializeSession_roundtrip (s : Session)
    (hp : (s.participants.map Prod.fst).Nodup)
    (hc : (s.cubes.map Prod.fst).Nodup) :
    deserializeSession (serializeSession s) = s := by
  simp only [deserializeSession, serializeSession,
    jsNewMap_eq_self _ hp, jsNewMap_eq_self _ hc]

/-- C8 witness: the roundtrip is the identity on the concrete fixture. -/
theorem deserializeSession_serializeSession_roundtrip_witness :
    ((sampleSession.participants.map Prod.fst).Nodup) ∧
    ((sampleSession.cubes.map Prod.fst).Nodup) ∧
    deserializeSession (serializeSession sampleSession) = sampleSession := by
  have h1 : (sampleSession.participants.map Prod.fst).Nodup := by decide
  have h2 : (sampleSession.cubes.map Prod.fst).Nodup := by decide
  exact ⟨h1, h2, deserializeSession_serializeSession_roundtrip sampleSession h1 h2⟩

theorem createEnergyUniforms_coeffCount (config : EnergyCubeConfig)
    (gridPosition : Rat × Rat × Rat) (time : Rat) (mode : VisualizationMode)
    (channelMask : Nat) (energyScale glowIntensity : Rat) (ch : ColorChannel) :
    (createEnergyUniforms config gridPosition time mode channelMask
        energyScale glowIntensity).coeffCount ch
      = (channelToUniforms (config.channel ch)).count := by
  cases ch <;> rfl

theorem createEnergyUniforms_coeffArray (config : EnergyCubeConfig)
    (gridPosition : Rat × Rat × Rat) (time : Rat) (mode : VisualizationMode)
    (channelMask : Nat) (energyScale glowIntensity : Rat) (ch : ColorChannel) :
    (createEnergyUniforms config gridPosition time mode channelMask
        energyScale glowIntensity).coeffArray ch
      = (channelToUniforms (config.channel ch)).coeffs := by
  cases ch <;> rfl

theorem createEnergyUniforms_freqZArray (config : EnergyCubeConfig)
    (gridPosition : Rat × Rat × Rat) (time : Rat) (mode : VisualizationMode)
    (channelMask : Nat) (energyScale glowIntensity : Rat) (ch : ColorChannel) :
    (createEnergyUniforms config gridPosition time mode channelMask
        energyScale glowIntensity).freqZArray ch
      = (channelToUniforms (config.channel ch)).freqZ := by
  cases ch <;> rfl

theorem channelToUniforms_lengths (o : Option FFTChannel) :
    (channelToUniforms o).coeffs.length = 8 ∧ (channelToUniforms o).freqZ.length = 8 := by
  cases o <;> simp [channelToUniforms]

theorem channelToUniforms_some_entry_lt (c : FFTChannel) (i : Nat) (coeff : FFTCoefficient)
    (hi : i < (channelToUniforms (some c)).count)
    (hco : c.coefficients[i]? = some coeff) :
    (channelToUniforms (some c)).coeffs[i]?
        = some [coeff.amplitude, coeff.phase, coeff.freqX, coeff.freqY] ∧
    (channelToUniforms (some c)).freqZ[i]? = some coeff.freqZ := by
  have hcount : (channelToUniforms (some c)).count = min c.coefficients.length 8 := rfl
  have hi8 : i < 8 := lt_of_lt_of_le (hcount ▸ hi) (min_le_right _ _)
  have hid : c.coefficients.getD i ⟨0, 0, 0, 0, 0⟩ = coeff := by
    rw [List.getD_eq_getElem?_getD, hco, Option.getD_some]
  constructor <;>
    · show ((List.range 8).map _)[i]? = _
      rw [List.getElem?_map, List.getElem?_range hi8, Option.map_some',
        if_pos (hcount ▸ hi), hid]

theorem channelToUniforms_some_entry_ge (c : FFTChannel) (i : Nat)
    (hge : (channelToUniforms (some c)).count ≤ i) (hi8 : i < 8) :
    (channelToUniforms (some c)).coeffs[i]? = some [0, 0, 0, 0] ∧
    (channelToUniforms (some c)).freqZ[i]? = some 0 := by
  have hge2 : min c.coefficients.length 8 ≤ i := hge
  constructor <;>
    · show ((List.range 8).map _)[i]? = _
      rw [List.getElem?_map, List.getElem?_range hi8, Option.map_some',
        if_neg (Nat.not_lt.mpr hge2)]

/-- C6: per channel, `createEnergyUniforms` caps the coefficient count at
`min(length, 8)`, writes `[amplitude, phase, freqX, freqY]` plus a separate
`freqZ` for every coefficient below the count into length-8 arrays, pads
the rest with zeros, and fills all-zero arrays with count 0 for a missing
channel. -/
theorem createEnergyUniforms_channel_marshalling
    (config : EnergyCubeConfig) (gridPosition : Rat × Rat × Rat) (time : Rat)
    (mode : VisualizationMode) (channelMask : Nat)
    (energyScale glowIntensity : Rat) (ch : ColorChannel) :
    (((createEnergyUniforms config gridPosition time mode channelMask
          energyScale glowIntensity).coeffArray ch).length = 8 ∧
      ((createEnergyUniforms config gridPosition time mode channelMask
          energyScale glowIntensity).freqZArray ch).length = 8) ∧
    (config.channel ch = none →
      (createEnergyUniforms config gridPosition time mode channelMask
          energyScale glowIntensity).coeffCount ch = 0 ∧
      (createEnergyUniforms config gridPosition time mode channelMask
          energyScale glowIntensity).coeffArray ch = List.replicate 8 [0, 0, 0, 0] ∧
      (createEnergyUniforms config gridPosition time mode channelMask
          energyScale glowIntensity).freqZArray ch = List.replicate 8 0) ∧
    (∀ c, config.channel ch = some c →
      (createEnergyUniforms config gridPosition time mode channelMask
          energyScale glowIntensity).coeffCount ch = min c.coefficients.length 8 ∧
      (∀ i coeff,
        i < (createEnergyUniforms config gridPosition time mode channelMask
            energyScale glowIntensity).coeffCount ch →
        c.coefficients[i]? = some coeff →
        ((createEnergyUniforms config gridPosition time mode channelMask
            energyScale glowIntensity).coeffArray ch)[i]?
          = some [coeff.amplitude, coeff.phase, coeff.freqX, coeff.freqY] ∧
        ((createEnergyUniforms config gridPosition time mode channelMask
            energyScale glowIntensity).freqZArray ch)[i]? = some coeff.freqZ) ∧
      (∀ i,
        (createEnergyUniforms config gridPosition time mode channelMask
            energyScale glowIntensity).coeffCount ch ≤ i → i < 8 →
        ((createEnergyUniforms config gridPosition time mode channelMask
            energyScale glowIntensity).coeffArray ch)[i]? = some [0, 0, 0, 0] ∧
        ((createEnergyUniforms config gridPosition time mode channelMask
            energyScale glowIntensity).freqZArray ch)[i]? = some 0)) := by
  rw [createEnergyUniforms_coeffCount, createEnergyUniforms_coeffArray,
    createEnergyUniforms_freqZArray]
  refine ⟨channelToUniforms_lengths _, ?_, ?_⟩
  · intro hnone
    rw [hnone]
    exact ⟨rfl, rfl, rfl⟩
  · intro c hsome
    rw [hsome]
    exact ⟨rfl, fun i coeff hi hco => channelToUniforms_some_entry_lt c i coeff hi hco,
      fun i hge hi8 => channelToUniforms_some_entry_ge c i hge hi8⟩

/-- C6 witness: the R channel marshals its two coefficients and pads with
zeros; the missing G channel yields count 0. -/
theorem createEnergyUniforms_channel_marshalling_witness :
    (sampleEnergyConfig.channel ColorChannel.R = some sampleFFTChannel) ∧
    ((createEnergyUniforms sampleEnergyConfig (0, 0, 0) 0 VisualizationMode.energy
        15 1 (5/10)).coeffCount ColorChannel.R = min 2 8) ∧
    (((createEnergyUniforms sampleEnergyConfig (0, 0, 0) 0 VisualizationMode.energy
        15 1 (5/10)).coeffArray ColorChannel.R)[0]? = some [1/4, 0, 1, 0]) ∧
    (((createEnergyUniforms sampleEnergyConfig (0, 0, 0) 0 VisualizationMode.energy
        15 1 (5/10)).freqZArray ColorChannel.R)[0]? = some 2) ∧
    (((createEnergyUniforms sampleEnergyConfig (0, 0, 0) 0 VisualizationMode.energy
        15 1 (5/10)).coeffArray ColorChannel.R)[5]? = some [0, 0, 0, 0]) ∧
    (sampleEnergyConfig.channel ColorChannel.G = none) ∧
    ((createEnergyUniforms sampleEnergyConfig (0, 0, 0) 0 VisualizationMode.energy
        15 1 (5/10)).coeffCount ColorChannel.G = 0) := by
  have mainR := createEnergyUniforms_channel_marshalling sampleEnergyConfig (0, 0, 0) 0
    VisualizationMode.energy 15 1 (5/10) ColorChannel.R
  have mainG := createEnergyUniforms_channel_marshalling sampleEnergyConfig (0, 0, 0) 0
    VisualizationMode.energy 15 1 (5/10) ColorChannel.G
  have hR : sampleEnergyConfig.channel ColorChannel.R = some sampleFFTChannel := rfl
  have hG : sampleEnergyConfig.channel ColorChannel.G = none := rfl
  have hsome := mainR.2.2 sampleFFTChannel hR
  have hcount : (createEnergyUniforms sampleEnergyConfig (0, 0, 0) 0
      VisualizationMode.energy 15 1 (5/10)).coeffCount ColorChannel.R = min 2 8 :=
    hsome.1
  have hentry := hsome.2.1 0 sampleFFTCoefficient (by rw [hcount]; decide) rfl
  have hpad := hsome.2.2 5 (by rw [hcount]; decide) (by decide)
  exact ⟨hR, hcount, hentry.1, hentry.2, hpad.1, hG, (mainG.2.1 hG).1⟩

end Isocubic
